import Mathlib

/-!
Verification of the bv05-forecast weather pipeline.

The development embeds the JSON-to-table transform of `src/weather1.py`
(`process_weather_data`, `fetch_and_process_forecast`) and the web handler of
`src/application.py` (`weather`) as executable Lean functions over a model of
decoded JSON values, and proves the behavioural properties stated about them.

Modelling conventions:
* Decoded JSON payloads are `PyVal` values.  JSON numbers are modelled as
  rationals (the transform only copies and re-tags numbers, it performs no
  float arithmetic, so this is faithful for every property proved here).
* Returning `None` from the Python function is `.ok Option.none`; an uncaught
  Python exception is `.error msg`.
* pandas behaviour is modelled where the transform relies on it:
  `pd.to_numeric(col, errors := coerce)` converts each value independently and
  turns unconvertible values into NaN (modelled as `Option.none`);
  `pd.to_datetime` raises on unparseable strings, maps `None` to `NaT` and
  numbers to epoch-offset timestamps.  Exotic accepted string formats
  (timestamps with time components, scientific notation, surrounding
  whitespace) and the bounded representable year range of pandas timestamps
  are not modelled; no property below depends on them.
-/

namespace Forecast

/-- A decoded JSON / Python value, as produced by `response.json()`.
JSON object keys are strings; insertion order is significant (Python dicts
preserve it). -/
inductive PyVal where
  | none
  | bool (b : Bool)
  | num (q : ℚ)
  | str (s : String)
  | list (xs : List PyVal)
  | dict (kvs : List (String × PyVal))

/-- Python `d[k]` / `k in d` on a dict: first binding for the key. -/
def pyLookup : List (String × PyVal) → String → Option PyVal
  | [], _ => Option.none
  | (k, v) :: t, key => if k = key then some v else pyLookup t key

/-- Python dict assignment `d[k] = v`: replace the value in place if the key
exists (keeping its position), otherwise append a new binding. -/
def dictInsert (l : List (String × PyVal)) (k : String) (v : PyVal) :
    List (String × PyVal) :=
  if l.any (fun p => p.1 == k) then
    l.map (fun p => if p.1 == k then (k, v) else p)
  else l ++ [(k, v)]

/-- Python truthiness, as used by `if unit_str:` and `if weather_json:`. -/
def pyTruthy : PyVal → Bool
  | .none => false
  | .bool b => b
  | .num q => decide (q ≠ 0)
  | .str s => !s.isEmpty
  | .list xs => !xs.isEmpty
  | .dict kvs => !kvs.isEmpty

/-- A single-quote character, used when rendering Python `repr` of strings. -/
def sq : String := String.singleton (Char.ofNat 39)

mutual

/-- Python `str(v)` as used inside the f-string building a column name.
String escaping inside `repr` and float formatting are simplified; no
property below applies `pyStr` to anything but a plain string. -/
def pyStr : PyVal → String
  | .none => "None"
  | .bool true => "True"
  | .bool false => "False"
  | .num q => toString q
  | .str s => s
  | .list xs => "[" ++ pyReprList xs ++ "]"
  | .dict kvs => "\x7b" ++ pyReprKVs kvs ++ "\x7d"

/-- Python `repr(v)`, used by `str` on the elements of containers. -/
def pyRepr : PyVal → String
  | .none => "None"
  | .bool true => "True"
  | .bool false => "False"
  | .num q => toString q
  | .str s => sq ++ s ++ sq
  | .list xs => "[" ++ pyReprList xs ++ "]"
  | .dict kvs => "\x7b" ++ pyReprKVs kvs ++ "\x7d"

/-- Comma-separated `repr`s of a list's elements. -/
def pyReprList : List PyVal → String
  | [] => ""
  | [x] => pyRepr x
  | x :: xs => pyRepr x ++ ", " ++ pyReprList xs

/-- Comma-separated `key: repr(value)` renderings of a dict's bindings. -/
def pyReprKVs : List (String × PyVal) → String
  | [] => ""
  | [(k, v)] => sq ++ k ++ sq ++ ": " ++ pyRepr v
  | (k, v) :: t => sq ++ k ++ sq ++ ": " ++ pyRepr v ++ ", " ++ pyReprKVs t

end

/-- Python `len`, defined on the shapes that reach it in the transform. -/
def pyLen : PyVal → Nat
  | .list xs => xs.length
  | .str s => s.length
  | .dict kvs => kvs.length
  | _ => 0

/-- The configured daily variables of `weather1.py` (`VARIABLES`), in order. -/
def VARIABLES : List String :=
  ["temperature_2m_mean",
   "relative_humidity_2m_mean",
   "wind_speed_10m_mean",
   "cloud_cover_mean",
   "precipitation_sum",
   "shortwave_radiation_sum",
   "apparent_temperature_mean",
   "dew_point_2m_mean"]

/-- Numeric value of a run of decimal digit characters. -/
def digitsToNat (l : List Char) : Nat :=
  l.foldl (fun n c => n * 10 + (c.toNat - 48)) 0

/-- Split a character list at every occurrence of a separator, like
Python's `str.split` with a one-character separator. -/
def splitOnChar (sep : Char) : List Char → List (List Char)
  | [] => [[]]
  | x :: t =>
    match splitOnChar sep t with
    | [] => [[]]
    | h :: r => if x = sep then [] :: h :: r else (x :: h) :: r

/-- Conversion of a string to a number, as Python `float` / pandas numeric
parsing accept it: optional sign, decimal digits with an optional single
decimal point (at least one digit overall). -/
def parseNum (s : String) : Option ℚ :=
  let sb : Bool × List Char :=
    match s.data with
    | '-' :: t => (true, t)
    | '+' :: t => (false, t)
    | t => (false, t)
  match splitOnChar '.' sb.2 with
  | [a] =>
    if decide (a.length ≠ 0) && a.all Char.isDigit then
      some (if sb.1 then -(digitsToNat a : ℚ) else (digitsToNat a : ℚ))
    else Option.none
  | [a, b] =>
    if decide (a.length + b.length ≠ 0) && a.all Char.isDigit
        && b.all Char.isDigit then
      let q : ℚ := (digitsToNat a * 10 ^ b.length + digitsToNat b : ℚ)
        / (10 ^ b.length : ℚ)
      some (if sb.1 then -q else q)
    else Option.none
  | _ => Option.none

/-- `pd.to_numeric(col, errors := coerce)` applied to one value: numbers and
booleans convert, numeric strings are parsed, and every unconvertible value
(null, non-numeric string, nested container) becomes NaN (`Option.none`)
without raising. -/
def toNumericElem : PyVal → Option ℚ
  | .none => Option.none
  | .bool b => some (if b then 1 else 0)
  | .num q => some q
  | .str s => parseNum s
  | .list _ => Option.none
  | .dict _ => Option.none

/-- Gregorian leap-year test. -/
def isLeap (y : Nat) : Bool :=
  y % 4 == 0 && (y % 100 != 0 || y % 400 == 0)

/-- Days in a month of the Gregorian calendar. -/
def daysInMonth (y m : Nat) : Nat :=
  if m = 2 then (if isLeap y then 29 else 28)
  else if m = 4 ∨ m = 6 ∨ m = 9 ∨ m = 11 then 30
  else 31

/-- Parse a `YYYY-MM-DD` calendar date string, checking calendar validity,
as `pd.to_datetime` does for the date strings of the `time` column. -/
def parseDate (s : String) : Option (Nat × Nat × Nat) :=
  match splitOnChar '-' s.data with
  | [ys, ms, dsx] =>
    if decide (ys.length = 4) && ys.all Char.isDigit
        && decide (1 ≤ ms.length) && decide (ms.length ≤ 2)
        && ms.all Char.isDigit
        && decide (1 ≤ dsx.length) && decide (dsx.length ≤ 2)
        && dsx.all Char.isDigit then
      let y := digitsToNat ys
      let m := digitsToNat ms
      let d := digitsToNat dsx
      if 1 ≤ m ∧ m ≤ 12 ∧ 1 ≤ d ∧ d ≤ daysInMonth y m then some (y, m, d)
      else Option.none
    else Option.none
  | _ => Option.none

/-- A pandas datetime cell: a calendar date parsed from a string, an
epoch-offset timestamp obtained from a number, or the missing marker `NaT`. -/
inductive PdDate where
  | ts (y m d : Nat)
  | epoch (q : ℚ)
  | NaT
deriving DecidableEq

/-- `pd.to_datetime` applied to one cell of the `date` column: strings must
parse as dates (otherwise the call raises), `None` becomes `NaT`, numbers
become epoch-offset timestamps, and booleans or nested containers raise. -/
def toDatetimeElem : PyVal → Except Unit PdDate
  | .str s =>
    match parseDate s with
    | some (y, m, d) => .ok (.ts y m d)
    | Option.none => .error ()
  | .none => .ok .NaT
  | .num q => .ok (.epoch q)
  | .bool _ => .error ()
  | .list _ => .error ()
  | .dict _ => .error ()

/-- `pd.to_datetime` over the whole `date` column: succeeds with the parsed
column exactly when every cell converts, raises otherwise. -/
def parseDates : List PyVal → Except Unit (List PdDate)
  | [] => .ok []
  | x :: t =>
    match toDatetimeElem x with
    | .error e => .error e
    | .ok d =>
      match parseDates t with
      | .error e => .error e
      | .ok ds => .ok (d :: ds)

/-- A column of the final DataFrame: the parsed `date` column, or a numeric
column in which NaN (a failed coercion or a degraded variable) is
`Option.none`. -/
inductive Col where
  | dates (xs : List PdDate)
  | nums (xs : List (Option ℚ))
deriving DecidableEq

/-- The final DataFrame: named columns in insertion order. -/
structure Frame where
  cols : List (String × Col)
deriving DecidableEq

deriving instance DecidableEq for Except

/-- Length of a column. -/
def colLen : Col → Nat
  | .dates xs => xs.length
  | .nums xs => xs.length

/-- `len(df)`: the number of rows, i.e. the common column length. -/
def nRows (f : Frame) : Nat :=
  match f.cols with
  | [] => 0
  | (_, c) :: _ => colLen c

/-- The display column name for a variable (`weather1.py` lines 110-114):
`"<var> (<unit>)"` when the unit value is truthy, the bare variable name
otherwise (`daily_units.get` yields `None` for a missing entry). -/
def displayName (v : String) (u : PyVal) : String :=
  if pyTruthy u then v ++ " (" ++ pyStr u ++ ")" else v

/-- The display name of `v` under a concrete units dict. -/
def colName (units : List (String × PyVal)) (v : String) : String :=
  displayName v ((pyLookup units v).getD .none)

/-- The cell list stored for a variable (`weather1.py` lines 118-125): the
variable's own sequence when it is present as a list of the right length,
and `[None] * len(dates)` when it is absent, not a list, or of a different
length. -/
def colCells (daily : List (String × PyVal)) (N : Nat) (v : String) :
    List PyVal :=
  match pyLookup daily v with
  | Option.none => List.replicate N .none
  | some (.list xs) => if xs.length = N then xs else List.replicate N .none
  | some _ => List.replicate N .none

/-- The cells a column contributes to `pd.DataFrame`: a list is taken as is;
a scalar string (the degenerate case where `daily.time` is a string) is
broadcast to the frame's length; other shapes cannot reach this point. -/
def cells : PyVal → List PyVal
  | .list xs => xs
  | .str s => List.replicate s.length (.str s)
  | _ => []

/-- The `try` block of `process_weather_data` (lines 131-147): build the
DataFrame from the assembled columns, coerce every non-`date` column to
numeric per value, and parse the `date` column; a raised date-parse error is
caught and turns the whole call into `None`. -/
def buildFrame (processed : List (String × PyVal)) :
    Except String (Option Frame) :=
  match parseDates (cells ((pyLookup processed "date").getD .none)) with
  | .error _ => .ok Option.none
  | .ok dp =>
    .ok (some ⟨processed.map (fun p =>
      if p.1 = "date" then (p.1, Col.dates dp)
      else (p.1, Col.nums ((cells p.2).map toNumericElem)))⟩)

/-- `process_weather_data` of `weather1.py` (lines 74-147).  `.ok Option.none`
models `return None`; `.error msg` models an uncaught Python exception:
a non-dict `daily` raises `AttributeError` in the debug f-string
`daily_data.keys()` (line 93), an unsized `daily.time` raises `TypeError` in
`len(dates)` (line 101), a dict `daily.time` raises `TypeError` in the slice
`dates[:5]` (line 102), and a non-dict `daily_units` raises `AttributeError`
in `daily_units.get(var)` on the first loop iteration (line 110, before any
column is produced, hence modelled up front). -/
def process_weather_data (data : PyVal) : Except String (Option Frame) :=
  match data with
  | .dict kvs =>
    match pyLookup kvs "daily", pyLookup kvs "daily_units" with
    | some dailyV, some unitsV =>
      match dailyV with
      | .dict daily =>
        match pyLookup daily "time" with
        | some datesV =>
          match datesV with
          | .dict _ => .error "TypeError: slice of dict in dates[:5]"
          | .list _ | .str _ =>
            match unitsV with
            | .dict units =>
              buildFrame (VARIABLES.foldl
                (fun acc v =>
                  dictInsert acc (colName units v)
                    (PyVal.list (colCells daily (pyLen datesV) v)))
                [("date", datesV)])
            | _ => .error "AttributeError: daily_units.get on non-dict"
          | _ => .error "TypeError: len of unsized dates"
        | Option.none => .ok Option.none
      | _ => .error "AttributeError: daily_data.keys on non-dict"
    | _, _ => .ok Option.none
  | _ => .ok Option.none

/-- `fetch_and_process_forecast` (lines 179-188), parameterised by the value
returned by `fetch_forecast_weather` (`PyVal.none` models a fetch failure).
The second component records whether `process_weather_data` was invoked. -/
def fetch_and_process_forecast (weather_json : PyVal) :
    Except String (Option Frame) × Bool :=
  if pyTruthy weather_json then (process_weather_data weather_json, true)
  else (.ok Option.none, false)

/-- A JSON-serialisable cell of the web response's row object. -/
inductive JVal where
  | jdate (d : PdDate)
  | jnum (q : ℚ)
  | jnull
deriving DecidableEq

/-- The body of the web endpoint's response: a flat key/value row object, or
the error object `\x7b"error": msg\x7d`. -/
inductive Body where
  | row (r : List (String × JVal))
  | errObj (msg : String)
deriving DecidableEq

/-- The first entry of a column, as serialised into the row object. -/
def colAt0 : Col → JVal
  | .dates l =>
    match l.head? with
    | some d => .jdate d
    | Option.none => .jnull
  | .nums l =>
    match l.head? with
    | some (some q) => .jnum q
    | _ => .jnull

/-- `df.iloc[0].to_dict()`: the first row as a flat key/value object. -/
def firstRow (f : Frame) : List (String × JVal) :=
  f.cols.map (fun p => (p.1, colAt0 p.2))

/-- The `/api/weather` handler of `application.py` (lines 10-15), as a
function of the value returned by `fetch_and_process_forecast`: the first
row with status 200 when a table with at least one row was produced, the
error object with status 500 otherwise. -/
def weather (df : Option Frame) : Body × Nat :=
  match df with
  | some f =>
    if 0 < nRows f then (.row (firstRow f), 200) else (.errObj "No data", 500)
  | Option.none => (.errObj "No data", 500)

/-- `process_weather_data` with the payload threaded through explicitly as
mutable state.  The Python source only reads from `data` (subscripts,
`.get`, `in`, `len`, slices); it never assigns into the payload or its
sub-structures, and the DataFrame constructor copies the cell lists, so
every exit point returns the payload exactly as received. -/
def process_weather_data_mut (data : PyVal) :
    Except String (Option Frame) × PyVal :=
  match data with
  | .dict kvs =>
    match pyLookup kvs "daily", pyLookup kvs "daily_units" with
    | some dailyV, some unitsV =>
      match dailyV with
      | .dict daily =>
        match pyLookup daily "time" with
        | some datesV =>
          match datesV with
          | .dict _ => (.error "TypeError: slice of dict in dates[:5]",
              .dict kvs)
          | .list _ | .str _ =>
            match unitsV with
            | .dict units =>
              (buildFrame (VARIABLES.foldl
                (fun acc v =>
                  dictInsert acc (colName units v)
                    (PyVal.list (colCells daily (pyLen datesV) v)))
                [("date", datesV)]), .dict kvs)
            | _ => (.error "AttributeError: daily_units.get on non-dict",
                .dict kvs)
          | _ => (.error "TypeError: len of unsized dates", .dict kvs)
        | Option.none => (.ok Option.none, .dict kvs)
      | _ => (.error "AttributeError: daily_data.keys on non-dict", .dict kvs)
    | _, _ => (.ok Option.none, .dict kvs)
  | _ => (.ok Option.none, data)

/-- Whether a datetime cell is a calendar date parsed from a string. -/
def isParsedDate : PdDate → Bool
  | .ts _ _ _ => true
  | _ => false

/-! ### Concrete payloads used by individual properties -/

/-- A fully valid response whose unit strings are all empty. -/
def c1Daily : List (String × PyVal) :=
  ("time", .list [.str "2024-01-01"]) ::
    VARIABLES.map (fun v => (v, PyVal.list [PyVal.num 0]))

/-- Empty-string units for every configured variable. -/
def c1Units : List (String × PyVal) :=
  VARIABLES.map (fun v => (v, PyVal.str ""))

/-- The payload built from `c1Daily` and `c1Units`. -/
def c1Data : PyVal :=
  .dict [("daily", .dict c1Daily), ("daily_units", .dict c1Units)]

/-- The table `c1Data` produces: every column keeps its bare name. -/
def c1Frame : Frame :=
  ⟨("date", Col.dates [.ts 2024 1 1]) ::
    VARIABLES.map (fun v => (v, Col.nums [some 0]))⟩

/-- A fully valid response with one date and unit `"C"` everywhere. -/
def c1wDaily : List (String × PyVal) :=
  ("time", .list [.str "2024-01-01"]) ::
    VARIABLES.map (fun v => (v, PyVal.list [PyVal.num 0]))

/-- Unit `"C"` for every configured variable. -/
def c1wUnits : List (String × PyVal) :=
  VARIABLES.map (fun v => (v, PyVal.str "C"))

/-- The payload built from `c1wDaily` and `c1wUnits`. -/
def c1wData : PyVal :=
  .dict [("daily", .dict c1wDaily), ("daily_units", .dict c1wUnits)]

/-- A structurally valid response whose only date string is unparseable and
whose variables are all absent. -/
def c2Daily : List (String × PyVal) := [("time", .list [.str "garbage"])]

/-- The payload built from `c2Daily`. -/
def c2Data : PyVal :=
  .dict [("daily", .dict c2Daily), ("daily_units", .dict [])]

/-- A structurally valid response with a parseable date and every
configured variable absent. -/
def c2wDaily : List (String × PyVal) :=
  [("time", .list [.str "2024-01-01"])]

/-- The payload built from `c2wDaily`. -/
def c2wData : PyVal :=
  .dict [("daily", .dict c2wDaily), ("daily_units", .dict [])]

/-- Daily data carrying one variable with a present value sequence. -/
def c4Daily : List (String × PyVal) :=
  [("time", .list [.str "2024-01-01"]),
   ("temperature_2m_mean", .list [.num 1])]

/-- A units dict mapping that variable to the empty string. -/
def c4Units : List (String × PyVal) := [("temperature_2m_mean", .str "")]

/-- The payload built from `c4Daily` and `c4Units`. -/
def c4Data : PyVal :=
  .dict [("daily", .dict c4Daily), ("daily_units", .dict c4Units)]

/-- The table `c4Data` produces: all columns carry bare names. -/
def c4Frame : Frame :=
  ⟨("date", Col.dates [.ts 2024 1 1]) ::
    ("temperature_2m_mean", Col.nums [some 1]) ::
    (VARIABLES.drop 1).map (fun v => (v, Col.nums [Option.none]))⟩

/-- A units dict with one real unit, one empty unit and the rest absent. -/
def c4wUnits : List (String × PyVal) :=
  [("temperature_2m_mean", .str "C"),
   ("relative_humidity_2m_mean", .str "")]

/-- The payload built from `c2wDaily` and `c4wUnits`. -/
def c4wData : PyVal :=
  .dict [("daily", .dict c2wDaily), ("daily_units", .dict c4wUnits)]

/-- A one-row table used to exercise the web handler. -/
def c6Frame : Frame :=
  ⟨[("date", Col.dates [.ts 2024 1 1]),
    ("temperature_2m_mean (C)", Col.nums [some 1])]⟩

/-- Daily data whose variable value cannot be coerced to a number. -/
def c7wDaily : List (String × PyVal) :=
  [("time", .list [.str "2024-01-01"]),
   ("temperature_2m_mean", .list [.str "abc"])]

/-- The payload built from `c7wDaily`. -/
def c7wData : PyVal :=
  .dict [("daily", .dict c7wDaily), ("daily_units", .dict [])]

/-- A structurally valid response whose `time` entry is a JSON null. -/
def c8Daily : List (String × PyVal) := [("time", .list [.none])]

/-- The payload built from `c8Daily`. -/
def c8Data : PyVal :=
  .dict [("daily", .dict c8Daily), ("daily_units", .dict [])]

/-- The table `c8Data` produces: its date cell is the `NaT` marker. -/
def c8Frame : Frame :=
  ⟨("date", Col.dates [PdDate.NaT]) ::
    VARIABLES.map (fun v => (v, Col.nums [Option.none]))⟩

/-- A structurally valid response with an unparseable date string. -/
def c8wDaily : List (String × PyVal) := [("time", .list [.str "nope"])]

/-- The payload built from `c8wDaily`. -/
def c8wData : PyVal :=
  .dict [("daily", .dict c8wDaily), ("daily_units", .dict [])]

/-! ### Helper lemmas about strings and column names -/

/-- The characters of a string before the first space.  Since no configured
variable name contains a space and every unit-suffixed display name starts
with the variable name followed by `" ("`, this function recovers the
variable a display name belongs to, which makes display names of distinct
variables distinct. -/
def stem (s : String) : List Char :=
  s.data.takeWhile (fun c => c != ' ')

theorem takeWhile_all (l : List Char) (h : ∀ c ∈ l, (c != ' ') = true) :
    l.takeWhile (fun c => c != ' ') = l := by
  induction l with
  | nil => rfl
  | cons a t ih =>
    have ha := h a (List.mem_cons_self a t)
    have ht : ∀ c ∈ t, (c != ' ') = true :=
      fun c hc => h c (List.mem_cons_of_mem a hc)
    simp [List.takeWhile_cons, ha, ih ht]

theorem takeWhile_stop (l r : List Char) (h : ∀ c ∈ l, (c != ' ') = true) :
    (l ++ ' ' :: r).takeWhile (fun c => c != ' ') = l := by
  induction l with
  | nil => rfl
  | cons a t ih =>
    have ha := h a (List.mem_cons_self a t)
    have ht : ∀ c ∈ t, (c != ' ') = true :=
      fun c hc => h c (List.mem_cons_of_mem a hc)
    simp [List.takeWhile_cons, ha, ih ht]

theorem stem_paren (v w : String) (hv : ∀ c ∈ v.data, (c != ' ') = true) :
    stem (v ++ " (" ++ w ++ ")") = v.data := by
  show ((((v.data ++ [' ', '(']) ++ w.data) ++ [')']).takeWhile
    fun c => c != ' ') = v.data
  simp only [List.append_assoc]
  exact takeWhile_stop v.data _ hv

theorem stem_displayName (v : String) (u : PyVal)
    (hv : ∀ c ∈ v.data, (c != ' ') = true) :
    stem (displayName v u) = v.data := by
  unfold displayName
  split
  · exact stem_paren v (pyStr u) hv
  · exact takeWhile_all v.data hv

theorem stem_colName (units : List (String × PyVal)) {v : String}
    (hv : ∀ c ∈ v.data, (c != ' ') = true) :
    stem (colName units v) = v.data :=
  stem_displayName v _ hv

theorem vars_nospace : ∀ v ∈ VARIABLES, ∀ c ∈ v.data, (c != ' ') = true := by
  decide

theorem vars_ne_date : ∀ v ∈ VARIABLES, v.data ≠ "date".data := by
  decide

theorem vars_data_pairwise :
    VARIABLES.Pairwise (fun a b => a.data ≠ b.data) := by
  decide

theorem colName_ne_date (units : List (String × PyVal)) {v : String}
    (hv : v ∈ VARIABLES) : colName units v ≠ "date" := by
  intro h
  have hs := stem_colName units (vars_nospace v hv)
  rw [h] at hs
  have hd : stem "date" = "date".data := rfl
  exact vars_ne_date v hv (hs.symm.trans hd)

theorem colName_pairwise (units : List (String × PyVal)) :
    (VARIABLES.map (colName units)).Pairwise (fun a b => a ≠ b) := by
  have h1 : (VARIABLES.map (colName units)).map stem
      = VARIABLES.map (fun v => v.data) := by
    rw [List.map_map]
    exact List.map_congr_left
      (fun v hv => stem_colName units (vars_nospace v hv))
  have h2 : ((VARIABLES.map (colName units)).map stem).Pairwise
      (fun a b => a ≠ b) := by
    rw [h1]
    decide
  exact List.Pairwise.of_map stem (fun a b h hab => h (by rw [hab])) h2

/-! ### Helper lemmas about the dict fold -/

theorem dictInsert_fresh (l : List (String × PyVal)) (k : String) (v : PyVal)
    (h : ∀ p ∈ l, p.1 ≠ k) : dictInsert l k v = l ++ [(k, v)] := by
  have hany : l.any (fun p => p.1 == k) = false := by
    rw [List.any_eq_false]
    intro p hp
    simpa using h p hp
  simp [dictInsert, hany]

theorem foldl_insert (vars : List String) (acc : List (String × PyVal))
    (nm : String → String) (val : String → PyVal)
    (hfresh : ∀ v ∈ vars, ∀ p ∈ acc, p.1 ≠ nm v)
    (hpair : (vars.map nm).Pairwise (fun a b => a ≠ b)) :
    vars.foldl (fun l v => dictInsert l (nm v) (val v)) acc
      = acc ++ vars.map (fun v => (nm v, val v)) := by
  induction vars generalizing acc with
  | nil => simp
  | cons v t ih =>
    have h1 : dictInsert acc (nm v) (val v) = acc ++ [(nm v, val v)] :=
      dictInsert_fresh acc (nm v) (val v)
        (fun p hp => hfresh v (List.mem_cons_self v t) p hp)
    have hpair' : (t.map nm).Pairwise (fun a b => a ≠ b) :=
      (List.pairwise_cons.1 (by simpa using hpair)).2
    have hhead : ∀ w ∈ t, nm v ≠ nm w := by
      intro w hw
      exact (List.pairwise_cons.1 (by simpa using hpair)).1 (nm w)
        (List.mem_map_of_mem nm hw)
    have hfresh' : ∀ w ∈ t, ∀ p ∈ acc ++ [(nm v, val v)], p.1 ≠ nm w := by
      intro w hw p hp
      rcases List.mem_append.1 hp with hp | hp
      · exact hfresh w (List.mem_cons_of_mem v hw) p hp
      · obtain rfl := List.mem_singleton.1 hp
        exact hhead w hw
    rw [List.foldl_cons, h1, ih (acc ++ [(nm v, val v)]) hfresh' hpair']
    simp

/-! ### Helper lemmas about date parsing and column extraction -/

theorem toDatetime_str_of_parse (t : String) (y m d : Nat)
    (h : parseDate t = some (y, m, d)) :
    toDatetimeElem (.str t) = .ok (.ts y m d) := by
  simp [toDatetimeElem, h]

theorem toDatetime_str_of_fail (t : String)
    (h : parseDate t = Option.none) :
    toDatetimeElem (.str t) = .error () := by
  simp [toDatetimeElem, h]

theorem toDatetime_str_ok (t : String) (d : PdDate)
    (h : toDatetimeElem (.str t) = .ok d) :
    ∃ y m dd, parseDate t = some (y, m, dd) ∧ d = .ts y m dd := by
  simp only [toDatetimeElem] at h
  cases hp : parseDate t with
  | none => rw [hp] at h; exact Except.noConfusion h
  | some p =>
    obtain ⟨y, m, dd⟩ := p
    rw [hp] at h
    simp only [Except.ok.injEq] at h
    exact ⟨y, m, dd, rfl, h.symm⟩

theorem parseDates_ok_of_elem_ok (l : List PyVal)
    (h : ∀ x ∈ l, ∃ d, toDatetimeElem x = .ok d) :
    ∃ dp, parseDates l = .ok dp ∧ dp.length = l.length := by
  induction l with
  | nil => exact ⟨[], rfl, rfl⟩
  | cons x t ih =>
    obtain ⟨d, hd⟩ := h x (List.mem_cons_self x t)
    obtain ⟨dp, hdp, hlen⟩ := ih (fun y hy => h y (List.mem_cons_of_mem x hy))
    refine ⟨d :: dp, ?_, ?_⟩
    · simp [parseDates, hd, hdp]
    · simp [hlen]

theorem parseDates_error_of_mem (l : List PyVal) (x : PyVal) (hx : x ∈ l)
    (he : toDatetimeElem x = .error ()) : parseDates l = .error () := by
  induction l with
  | nil => cases hx
  | cons y t ih =>
    rcases List.mem_cons.1 hx with rfl | hmem
    · simp [parseDates, he]
    · cases hy : toDatetimeElem y with
      | error e => cases e; simp [parseDates, hy]
      | ok d => simp [parseDates, hy, ih hmem]

theorem parseDates_ok_mem (l : List PyVal) (dp : List PdDate)
    (h : parseDates l = .ok dp) :
    ∀ x ∈ l, ∃ d, toDatetimeElem x = .ok d := by
  induction l generalizing dp with
  | nil => intro x hx; cases hx
  | cons y t ih =>
    intro x hx
    simp only [parseDates] at h
    cases hy : toDatetimeElem y with
    | error e => rw [hy] at h; exact Except.noConfusion h
    | ok d =>
      rw [hy] at h
      cases ht : parseDates t with
      | error e => rw [ht] at h; exact Except.noConfusion h
      | ok dp2 =>
        rcases List.mem_cons.1 hx with rfl | hx2
        · exact ⟨d, hy⟩
        · exact ih dp2 ht x hx2

theorem colCells_length (daily : List (String × PyVal)) (N : Nat)
    (v : String) : (colCells daily N v).length = N := by
  cases h : pyLookup daily v with
  | none => simp [colCells, h]
  | some w =>
    cases w with
    | list xs =>
      by_cases hx : xs.length = N
      · simp [colCells, h, hx]
      · simp [colCells, h, hx]
    | none => simp [colCells, h]
    | bool b => simp [colCells, h]
    | num q => simp [colCells, h]
    | str s => simp [colCells, h]
    | dict kvs => simp [colCells, h]

theorem colCells_of_good (daily : List (String × PyVal)) (N : Nat)
    (v : String) (xs : List PyVal)
    (h : pyLookup daily v = some (.list xs)) (hlen : xs.length = N) :
    colCells daily N v = xs := by
  simp [colCells, h, hlen]

theorem colCells_of_bad (daily : List (String × PyVal)) (N : Nat)
    (v : String)
    (hbad : pyLookup daily v = Option.none
      ∨ (∃ w, pyLookup daily v = some w ∧ ∀ xs, w ≠ PyVal.list xs)
      ∨ (∃ xs, pyLookup daily v = some (PyVal.list xs) ∧ xs.length ≠ N)) :
    colCells daily N v = List.replicate N .none := by
  rcases hbad with h | ⟨w, hw, hnw⟩ | ⟨xs, hxs, hne⟩
  · simp [colCells, h]
  · cases w with
    | list xs => exact absurd rfl (hnw xs)
    | none => simp [colCells, hw]
    | bool b => simp [colCells, hw]
    | num q => simp [colCells, hw]
    | str s => simp [colCells, hw]
    | dict kvs => simp [colCells, hw]
  · simp [colCells, hxs, hne]

/-! ### The transform on a structurally valid payload -/

theorem pyLen_list (xs : List PyVal) : pyLen (.list xs) = xs.length := rfl

theorem buildFrame_cons_date (ds : List PyVal)
    (rest : List (String × PyVal)) (hrest : ∀ p ∈ rest, p.1 ≠ "date") :
    buildFrame (("date", PyVal.list ds) :: rest) =
      match parseDates ds with
      | .error _ => .ok Option.none
      | .ok dp => .ok (some ⟨("date", Col.dates dp) ::
          rest.map (fun p =>
            (p.1, Col.nums ((cells p.2).map toNumericElem)))⟩) := by
  have hc : cells ((pyLookup (("date", PyVal.list ds) :: rest) "date").getD
      .none) = ds := by
    simp [pyLookup, cells]
  unfold buildFrame
  rw [hc]
  cases hpd : parseDates ds with
  | error e => rfl
  | ok dp =>
    have hmap : rest.map (fun p =>
        if p.1 = "date" then (p.1, Col.dates dp)
        else (p.1, Col.nums ((cells p.2).map toNumericElem)))
      = rest.map (fun p =>
        (p.1, Col.nums ((cells p.2).map toNumericElem))) :=
      List.map_congr_left (fun p hp => by rw [if_neg (hrest p hp)])
    simp only [List.map_cons, hmap]
    simp

theorem process_dict_eq (kvs daily units : List (String × PyVal))
    (ds : List PyVal)
    (h1 : pyLookup kvs "daily" = some (.dict daily))
    (h2 : pyLookup kvs "daily_units" = some (.dict units))
    (h3 : pyLookup daily "time" = some (.list ds)) :
    process_weather_data (.dict kvs) =
      match parseDates ds with
      | .error _ => .ok Option.none
      | .ok dp => .ok (some ⟨("date", Col.dates dp) ::
          VARIABLES.map (fun v =>
            (colName units v,
             Col.nums ((colCells daily ds.length v).map toNumericElem)))⟩) := by
  simp only [process_weather_data, h1, h2, h3]
  rw [foldl_insert VARIABLES [("date", PyVal.list ds)] (colName units)
    (fun v => PyVal.list (colCells daily (pyLen (.list ds)) v))
    (fun v hv p hp => by
      obtain rfl := List.mem_singleton.1 hp
      exact (colName_ne_date units hv).symm)
    (colName_pairwise units)]
  rw [List.singleton_append]
  rw [buildFrame_cons_date ds _ (fun p hp => by
    obtain ⟨v, hv, rfl⟩ := List.mem_map.1 hp
    exact colName_ne_date units hv)]
  cases parseDates ds with
  | error e => rfl
  | ok dp =>
    simp only [List.map_map, pyLen_list]
    rfl

/-! ### Display-name facts -/

theorem pyTruthy_str (w : String) : pyTruthy (.str w) = !w.isEmpty := rfl

theorem displayName_of_unit (v w : String) (hw : w ≠ "") :
    displayName v (.str w) = v ++ " (" ++ w ++ ")" := by
  have hie : w.isEmpty = false := by
    rw [← Bool.not_eq_true, String.isEmpty_iff]
    exact hw
  have ht : pyTruthy (.str w) = true := by
    rw [pyTruthy_str, hie]
    rfl
  simp [displayName, ht, pyStr]

theorem displayName_of_empty (v : String) : displayName v (.str "") = v := rfl

theorem displayName_of_none (v : String) : displayName v .none = v := rfl

theorem colName_of_unit (units : List (String × PyVal)) (v w : String)
    (h : pyLookup units v = some (.str w)) (hw : w ≠ "") :
    colName units v = v ++ " (" ++ w ++ ")" := by
  unfold colName
  rw [h]
  exact displayName_of_unit v w hw

theorem colName_of_absent (units : List (String × PyVal)) (v : String)
    (h : pyLookup units v = Option.none) : colName units v = v := by
  unfold colName
  rw [h]
  exact displayName_of_none v

theorem colName_of_empty (units : List (String × PyVal)) (v : String)
    (h : pyLookup units v = some (.str "")) : colName units v = v := by
  unfold colName
  rw [h]
  exact displayName_of_empty v

/-! ### State-threaded transform for the frame property -/

theorem process_mut_spec (data : PyVal) :
    process_weather_data_mut data = (process_weather_data data, data) := by
  cases data <;> try rfl
  case dict kvs =>
    simp only [process_weather_data_mut, process_weather_data]
    repeat' split <;> try rfl

/-! ### The claimed properties -/

/-- C3: for every payload that is not a mapping, or is a mapping lacking the
`daily` or `daily_units` key, or whose `daily` mapping lacks the `time` key,
`process_weather_data` returns the failure signal `None` and no table; in
particular a top-level sequence is rejected with a structural error rather
than crashing. -/
theorem C3_structural_failure (data : PyVal)
    (h : (∀ kvs, data ≠ PyVal.dict kvs)
      ∨ (∃ kvs, data = PyVal.dict kvs ∧
          (pyLookup kvs "daily" = Option.none ∨
           pyLookup kvs "daily_units" = Option.none))
      ∨ (∃ kvs daily, data = PyVal.dict kvs ∧
          pyLookup kvs "daily" = some (PyVal.dict daily) ∧
          pyLookup daily "time" = Option.none)) :
    process_weather_data data = .ok Option.none := by
  rcases h with h | ⟨kvs, rfl, h⟩ | ⟨kvs, daily, rfl, h1, h2⟩
  · cases data with
    | dict kvs => exact absurd rfl (h kvs)
    | none => rfl
    | bool b => rfl
    | num q => rfl
    | str s => rfl
    | list xs => rfl
  · rcases h with h | h
    · cases h2 : pyLookup kvs "daily_units" with
      | none => simp [process_weather_data, h, h2]
      | some u => simp [process_weather_data, h, h2]
    · cases h1 : pyLookup kvs "daily" with
      | none => simp [process_weather_data, h, h1]
      | some d => simp [process_weather_data, h, h1]
  · cases hu : pyLookup kvs "daily_units" with
    | none => simp [process_weather_data, h1, hu]
    | some u => simp [process_weather_data, h1, h2, hu]

/-- Witness for C3: a top-level JSON array is not a mapping, and the
transform rejects it with the absence signal. -/
theorem C3_structural_failure_witness :
    (∀ kvs, PyVal.list [] ≠ PyVal.dict kvs) ∧
    process_weather_data (PyVal.list []) = .ok Option.none :=
  ⟨fun _ h => PyVal.noConfusion h,
   C3_structural_failure _ (Or.inl (fun _ h => PyVal.noConfusion h))⟩

/-- C5 (failing input): on the payload `\x7b"daily": 0, "daily_units":
\x7b\x7d\x7d` the transform does not return a table or the absence signal:
it raises an uncaught `AttributeError` when the debug f-string at
`weather1.py` line 93 evaluates `daily_data.keys()` on the integer. -/
theorem C5_daily_non_mapping_crashes :
    process_weather_data (PyVal.dict
        [("daily", PyVal.num 0), ("daily_units", PyVal.dict [])])
      = .error "AttributeError: daily_data.keys on non-dict" := rfl

/-- C6: the web handler returns the first row as a flat key/value object
with HTTP 200 exactly when the fetch-and-transform result is a table with at
least one row, and the body `\x7b"error": "No data"\x7d` with status 500 in
every other case (no table, or a zero-row table). -/
theorem C6_weather_endpoint (df : Option Frame) :
    (∀ f, df = some f → 0 < nRows f →
      weather df = (Body.row (firstRow f), 200)) ∧
    ((df = Option.none ∨ ∃ f, df = some f ∧ nRows f = 0) →
      weather df = (Body.errObj "No data", 500)) := by
  constructor
  · rintro f rfl hf
    simp [weather, hf]
  · rintro (rfl | ⟨f, rfl, hf⟩)
    · rfl
    · simp [weather, hf]

/-- Witness for C6: a concrete one-row table yields its first row with
status 200, and a missing table yields the error body with status 500. -/
theorem C6_weather_endpoint_witness :
    weather (some c6Frame) = (Body.row (firstRow c6Frame), 200) ∧
    weather Option.none = (Body.errObj "No data", 500) :=
  ⟨(C6_weather_endpoint (some c6Frame)).1 c6Frame rfl (by decide),
   (C6_weather_endpoint Option.none).2 (Or.inl rfl)⟩

/-- C9: whenever the fetched payload is falsy (the empty mapping, an empty
sequence, `None`, ...), `fetch_and_process_forecast` returns the absence
signal without invoking the transformer at all (the boolean component of
the model records whether `process_weather_data` was called). -/
theorem C9_falsy_payload_skips_transform (j : PyVal)
    (h : pyTruthy j = false) :
    fetch_and_process_forecast j = (.ok Option.none, false) := by
  simp [fetch_and_process_forecast, h]

/-- Witness for C9: the empty mapping is falsy and short-circuits the
pipeline. -/
theorem C9_falsy_payload_skips_transform_witness :
    pyTruthy (PyVal.dict []) = false ∧
    fetch_and_process_forecast (PyVal.dict []) = (.ok Option.none, false) :=
  ⟨rfl, C9_falsy_payload_skips_transform _ rfl⟩

/-- C10: the transform never mutates its input: in the state-threaded
embedding the payload (with all its sub-mappings and value sequences) comes
back exactly as it was passed in, and the returned value agrees with the
plain embedding. -/
theorem C10_transform_preserves_payload (data : PyVal) :
    (process_weather_data_mut data).2 = data ∧
    (process_weather_data_mut data).1 = process_weather_data data := by
  rw [process_mut_spec]
  exact ⟨rfl, rfl⟩

/-- Counterexample to C1 as stated: `c1Data` is a fully valid response
(all dates parse, every configured variable present with matching length,
`daily_units` giving a unit string — the empty string — for every
variable), yet no column carries the claimed `"<variable> (<unit>)"` name:
all variable columns keep their bare names, because an empty unit string is
falsy and triggers the bare-name fallback. -/
theorem C1_counterexample :
    process_weather_data c1Data = .ok (some c1Frame) ∧
    c1Frame.cols.map Prod.fst = "date" :: VARIABLES ∧
    "date" :: VARIABLES
      ≠ "date" :: VARIABLES.map (fun v => v ++ " (" ++ "" ++ ")") := by
  refine ⟨by decide, by decide, by decide⟩

/-- C1 (amended: every configured variable's unit string is nonempty): for
every valid response with N parseable dates, all variables present as
sequences of length N and a nonempty unit string per variable, the
transform returns a table with exactly N rows and columns `date` plus one
column per configured variable named `"<variable> (<unit>)"`. -/
theorem C1_valid_response_table
    (kvs daily units : List (String × PyVal)) (ds : List PyVal)
    (u : String → String)
    (h1 : pyLookup kvs "daily" = some (PyVal.dict daily))
    (h2 : pyLookup kvs "daily_units" = some (PyVal.dict units))
    (h3 : pyLookup daily "time" = some (PyVal.list ds))
    (hdates : ∀ x ∈ ds, ∃ t y m d, x = PyVal.str t ∧
        parseDate t = some (y, m, d))
    (hvars : ∀ v ∈ VARIABLES, ∃ xs, pyLookup daily v = some (PyVal.list xs) ∧
        xs.length = ds.length)
    (hunits : ∀ v ∈ VARIABLES,
        pyLookup units v = some (PyVal.str (u v)) ∧ u v ≠ "") :
    ∃ f : Frame, process_weather_data (PyVal.dict kvs) = .ok (some f) ∧
      nRows f = ds.length ∧
      f.cols.map Prod.fst
        = "date" :: VARIABLES.map (fun v => v ++ " (" ++ u v ++ ")") ∧
      (∀ p ∈ f.cols, colLen p.2 = ds.length) ∧
      (∀ v ∈ VARIABLES, ∃ xs, pyLookup daily v = some (PyVal.list xs) ∧
        colCells daily ds.length v = xs) := by
  have hds : ∀ x ∈ ds, ∃ d, toDatetimeElem x = .ok d := by
    intro x hx
    obtain ⟨t, y, m, d, rfl, hp⟩ := hdates x hx
    exact ⟨.ts y m d, toDatetime_str_of_parse t y m d hp⟩
  obtain ⟨dp, hdp, hlen⟩ := parseDates_ok_of_elem_ok ds hds
  have heq := process_dict_eq kvs daily units ds h1 h2 h3
  simp only [hdp] at heq
  refine ⟨_, heq, ?_, ?_, ?_, ?_⟩
  · simp [nRows, colLen, hlen]
  · simp only [List.map_cons, List.map_map]
    congr 1
    apply List.map_congr_left
    intro v hv
    show colName units v = v ++ " (" ++ u v ++ ")"
    exact colName_of_unit units v (u v) (hunits v hv).1 (hunits v hv).2
  · intro p hp
    rcases List.mem_cons.1 hp with rfl | hp
    · simp [colLen, hlen]
    · obtain ⟨v, hv, rfl⟩ := List.mem_map.1 hp
      simp [colLen, colCells_length]
  · intro v hv
    obtain ⟨xs, hxs, hxlen⟩ := hvars v hv
    exact ⟨xs, hxs, colCells_of_good daily ds.length v xs hxs hxlen⟩

/-- Witness for C1: a concrete fully valid one-day response with unit `"C"`
everywhere produces a one-row table with unit-suffixed column names. -/
theorem C1_valid_response_table_witness :
    ∃ f : Frame, process_weather_data c1wData = .ok (some f) ∧
      nRows f = 1 ∧
      f.cols.map Prod.fst
        = "date" :: VARIABLES.map (fun v => v ++ " (" ++ "C" ++ ")") ∧
      (∀ p ∈ f.cols, colLen p.2 = 1) ∧
      (∀ v ∈ VARIABLES, ∃ xs, pyLookup c1wDaily v = some (PyVal.list xs) ∧
        colCells c1wDaily 1 v = xs) :=
  C1_valid_response_table
    [("daily", .dict c1wDaily), ("daily_units", .dict c1wUnits)]
    c1wDaily c1wUnits [.str "2024-01-01"] (fun _ => "C")
    rfl rfl rfl
    (by
      intro x hx
      obtain rfl := List.mem_singleton.1 hx
      exact ⟨"2024-01-01", 2024, 1, 1, rfl, rfl⟩)
    (by
      intro v hv
      simp only [VARIABLES, List.mem_cons, List.mem_singleton,
        List.not_mem_nil, or_false] at hv
      rcases hv with rfl | rfl | rfl | rfl | rfl | rfl | rfl | rfl <;>
        exact ⟨_, rfl, rfl⟩)
    (by
      intro v hv
      simp only [VARIABLES, List.mem_cons, List.mem_singleton,
        List.not_mem_nil, or_false] at hv
      rcases hv with rfl | rfl | rfl | rfl | rfl | rfl | rfl | rfl <;>
        exact ⟨rfl, by decide⟩)

/-- Counterexample to C2 as stated: `c2Data` passes structural validation
(a mapping with `daily`, `daily_units` and `daily.time`) and the variable
`temperature_2m_mean` is absent from `daily`, yet the transform does not
succeed: its single date string is unparseable, so the whole call returns
the absence signal instead of a table. -/
theorem C2_counterexample :
    process_weather_data c2Data = .ok Option.none ∧
    pyLookup c2Daily "temperature_2m_mean" = Option.none ∧
    pyLookup c2Daily "time" = some (.list [.str "garbage"]) := by
  refine ⟨by decide, rfl, rfl⟩

/-- C2 (amended: additionally require `daily` to be a mapping and `time` a
sequence of parseable date strings, without which table construction fails
or the call raises): a configured variable that is absent from `daily`, not
a proper list, or of mismatched length degrades to a column of N
missing-value markers, the transform still succeeds, and every other
variable's column is computed from that variable's own entry alone. -/
theorem C2_degraded_variable
    (kvs daily units : List (String × PyVal)) (ds : List PyVal) (v : String)
    (h1 : pyLookup kvs "daily" = some (PyVal.dict daily))
    (h2 : pyLookup kvs "daily_units" = some (PyVal.dict units))
    (h3 : pyLookup daily "time" = some (PyVal.list ds))
    (hdates : ∀ x ∈ ds, ∃ t y m d, x = PyVal.str t ∧
        parseDate t = some (y, m, d))
    (hv : v ∈ VARIABLES)
    (hbad : pyLookup daily v = Option.none
      ∨ (∃ w, pyLookup daily v = some w ∧ ∀ xs, w ≠ PyVal.list xs)
      ∨ (∃ xs, pyLookup daily v = some (PyVal.list xs) ∧
          xs.length ≠ ds.length)) :
    ∃ dp f, process_weather_data (PyVal.dict kvs) = .ok (some f) ∧
      f.cols = ("date", Col.dates dp) :: VARIABLES.map (fun w =>
        (colName units w,
         Col.nums ((colCells daily ds.length w).map toNumericElem))) ∧
      colName units v ∈ f.cols.map Prod.fst ∧
      (colCells daily ds.length v).map toNumericElem
        = List.replicate ds.length Option.none := by
  have hds : ∀ x ∈ ds, ∃ d, toDatetimeElem x = .ok d := by
    intro x hx
    obtain ⟨t, y, m, d, rfl, hp⟩ := hdates x hx
    exact ⟨.ts y m d, toDatetime_str_of_parse t y m d hp⟩
  obtain ⟨dp, hdp, _⟩ := parseDates_ok_of_elem_ok ds hds
  have heq := process_dict_eq kvs daily units ds h1 h2 h3
  simp only [hdp] at heq
  refine ⟨dp, _, heq, rfl, ?_, ?_⟩
  · simp only [List.map_cons, List.map_map, List.mem_cons]
    right
    exact List.mem_map.2 ⟨v, hv, rfl⟩
  · rw [colCells_of_bad daily ds.length v hbad]
    simp [toNumericElem]

/-- Witness for C2: with a parseable date and `temperature_2m_mean` absent,
the table is produced and that column is a row of missing markers. -/
theorem C2_degraded_variable_witness :
    ∃ dp f, process_weather_data c2wData = .ok (some f) ∧
      f.cols = ("date", Col.dates dp) :: VARIABLES.map (fun w =>
        (colName [] w,
         Col.nums ((colCells c2wDaily 1 w).map toNumericElem))) ∧
      colName [] "temperature_2m_mean" ∈ f.cols.map Prod.fst ∧
      (colCells c2wDaily 1 "temperature_2m_mean").map toNumericElem
        = List.replicate 1 Option.none :=
  C2_degraded_variable
    [("daily", .dict c2wDaily), ("daily_units", .dict [])]
    c2wDaily [] [.str "2024-01-01"] "temperature_2m_mean"
    rfl rfl rfl
    (by
      intro x hx
      obtain rfl := List.mem_singleton.1 hx
      exact ⟨"2024-01-01", 2024, 1, 1, rfl, rfl⟩)
    (by decide)
    (Or.inl rfl)

/-- Counterexample to C4 as stated: in `c4Data` the units mapping does hold
a unit string (the empty string) for `temperature_2m_mean`, whose data is
present, yet the produced column is named with the bare variable name and
no `"<variable> (<unit>)"` column exists. -/
theorem C4_counterexample :
    pyLookup c4Units "temperature_2m_mean" = some (PyVal.str "") ∧
    process_weather_data c4Data = .ok (some c4Frame) ∧
    c4Frame.cols.map Prod.fst = "date" :: VARIABLES ∧
    "temperature_2m_mean ()" ∉ c4Frame.cols.map Prod.fst := by
  refine ⟨rfl, by decide, by decide, by decide⟩

/-- C4 (amended: a *nonempty* unit string yields the suffixed name; an
absent entry — and likewise an empty, falsy unit string — yields the bare
variable name): the display column names of the produced table follow
`colName`, which suffixes `" (<unit>)"` exactly when the unit value is
truthy. -/
theorem C4_display_names
    (kvs daily units : List (String × PyVal)) (ds : List PyVal)
    (h1 : pyLookup kvs "daily" = some (PyVal.dict daily))
    (h2 : pyLookup kvs "daily_units" = some (PyVal.dict units))
    (h3 : pyLookup daily "time" = some (PyVal.list ds))
    (hdates : ∀ x ∈ ds, ∃ t y m d, x = PyVal.str t ∧
        parseDate t = some (y, m, d)) :
    ∃ f, process_weather_data (PyVal.dict kvs) = .ok (some f) ∧
      f.cols.map Prod.fst = "date" :: VARIABLES.map (colName units) ∧
      (∀ v ∈ VARIABLES, ∀ w : String,
        pyLookup units v = some (PyVal.str w) → w ≠ "" →
          colName units v = v ++ " (" ++ w ++ ")") ∧
      (∀ v ∈ VARIABLES, pyLookup units v = Option.none →
          colName units v = v) ∧
      (∀ v ∈ VARIABLES, pyLookup units v = some (PyVal.str "") →
          colName units v = v) := by
  have hds : ∀ x ∈ ds, ∃ d, toDatetimeElem x = .ok d := by
    intro x hx
    obtain ⟨t, y, m, d, rfl, hp⟩ := hdates x hx
    exact ⟨.ts y m d, toDatetime_str_of_parse t y m d hp⟩
  obtain ⟨dp, hdp, _⟩ := parseDates_ok_of_elem_ok ds hds
  have heq := process_dict_eq kvs daily units ds h1 h2 h3
  simp only [hdp] at heq
  refine ⟨_, heq, ?_, ?_, ?_, ?_⟩
  · simp only [List.map_cons, List.map_map]
    rfl
  · intro v _ w hw hne
    exact colName_of_unit units v w hw hne
  · intro v _ h
    exact colName_of_absent units v h
  · intro v _ h
    exact colName_of_empty units v h

/-- Witness for C4: one variable with unit `"C"`, one with the empty-string
unit, and the rest absent from the units mapping. -/
theorem C4_display_names_witness :
    ∃ f, process_weather_data c4wData = .ok (some f) ∧
      f.cols.map Prod.fst = "date" :: VARIABLES.map (colName c4wUnits) ∧
      (∀ v ∈ VARIABLES, ∀ w : String,
        pyLookup c4wUnits v = some (PyVal.str w) → w ≠ "" →
          colName c4wUnits v = v ++ " (" ++ w ++ ")") ∧
      (∀ v ∈ VARIABLES, pyLookup c4wUnits v = Option.none →
          colName c4wUnits v = v) ∧
      (∀ v ∈ VARIABLES, pyLookup c4wUnits v = some (PyVal.str "") →
          colName c4wUnits v = v) :=
  C4_display_names
    [("daily", .dict c2wDaily), ("daily_units", .dict c4wUnits)]
    c2wDaily c4wUnits [.str "2024-01-01"]
    rfl rfl rfl
    (by
      intro x hx
      obtain rfl := List.mem_singleton.1 hx
      exact ⟨"2024-01-01", 2024, 1, 1, rfl, rfl⟩)

/-- C7: numeric coercion is per-value and total: whenever the table is
constructed (only the dates must parse; the variables' cell values are
arbitrary), every non-date column equals its raw cells mapped elementwise
through `toNumericElem` — unconvertible values become missing markers while
every other value of the column is kept — and each column keeps all
`N` entries, so coercion never aborts the construction. -/
theorem C7_numeric_coercion
    (kvs daily units : List (String × PyVal)) (ds : List PyVal)
    (h1 : pyLookup kvs "daily" = some (PyVal.dict daily))
    (h2 : pyLookup kvs "daily_units" = some (PyVal.dict units))
    (h3 : pyLookup daily "time" = some (PyVal.list ds))
    (hdates : ∀ x ∈ ds, ∃ t y m d, x = PyVal.str t ∧
        parseDate t = some (y, m, d)) :
    ∃ dp f, process_weather_data (PyVal.dict kvs) = .ok (some f) ∧
      f.cols = ("date", Col.dates dp) :: VARIABLES.map (fun v =>
        (colName units v,
         Col.nums ((colCells daily ds.length v).map toNumericElem))) ∧
      ∀ v ∈ VARIABLES,
        ((colCells daily ds.length v).map toNumericElem).length
          = ds.length := by
  have hds : ∀ x ∈ ds, ∃ d, toDatetimeElem x = .ok d := by
    intro x hx
    obtain ⟨t, y, m, d, rfl, hp⟩ := hdates x hx
    exact ⟨.ts y m d, toDatetime_str_of_parse t y m d hp⟩
  obtain ⟨dp, hdp, _⟩ := parseDates_ok_of_elem_ok ds hds
  have heq := process_dict_eq kvs daily units ds h1 h2 h3
  simp only [hdp] at heq
  refine ⟨dp, _, heq, rfl, ?_⟩
  intro v _
  simp [colCells_length]

/-- Witness for C7: a value `"abc"` that cannot be coerced produces a table
whose corresponding cell is the missing marker, without aborting. -/
theorem C7_numeric_coercion_witness :
    ∃ dp f, process_weather_data c7wData = .ok (some f) ∧
      f.cols = ("date", Col.dates dp) :: VARIABLES.map (fun v =>
        (colName [] v,
         Col.nums ((colCells c7wDaily 1 v).map toNumericElem))) ∧
      ∀ v ∈ VARIABLES,
        ((colCells c7wDaily 1 v).map toNumericElem).length = 1 :=
  C7_numeric_coercion
    [("daily", .dict c7wDaily), ("daily_units", .dict [])]
    c7wDaily [] [.str "2024-01-01"]
    rfl rfl rfl
    (by
      intro x hx
      obtain rfl := List.mem_singleton.1 hx
      exact ⟨"2024-01-01", 2024, 1, 1, rfl, rfl⟩)

/-- Counterexample to C8 as stated: `c8Data` is structurally valid, its
`time` sequence contains no string that fails to parse (its only entry is a
JSON null), and a table is returned — but that table's `date` value is the
`NaT` missing marker, not a parsed calendar date. -/
theorem C8_counterexample :
    process_weather_data c8Data = .ok (some c8Frame) ∧
    c8Frame.cols.head? = some ("date", Col.dates [PdDate.NaT]) ∧
    isParsedDate PdDate.NaT = false := by
  refine ⟨by decide, rfl, rfl⟩

/-- C8 (amended: restricted to the entries of `time` that are strings; null
entries do not abort construction but become `NaT` markers): if any string
in `time` fails to parse as a calendar date the transform returns the
absence signal instead of a table; and in every returned table the `date`
column is the parse of `time`, in which every entry that was a string is a
parsed calendar date, while a null entry yields `NaT`. -/
theorem C8_date_parsing
    (kvs daily units : List (String × PyVal)) (ds : List PyVal)
    (h1 : pyLookup kvs "daily" = some (PyVal.dict daily))
    (h2 : pyLookup kvs "daily_units" = some (PyVal.dict units))
    (h3 : pyLookup daily "time" = some (PyVal.list ds)) :
    ((∃ x ∈ ds, ∃ t, x = PyVal.str t ∧ parseDate t = Option.none) →
        process_weather_data (PyVal.dict kvs) = .ok Option.none) ∧
    (∀ f, process_weather_data (PyVal.dict kvs) = .ok (some f) →
      ∃ dp, parseDates ds = .ok dp ∧
        f.cols.head? = some ("date", Col.dates dp) ∧
        ∀ x ∈ ds, ∀ t, x = PyVal.str t →
          ∃ y m d, parseDate t = some (y, m, d)) ∧
    toDatetimeElem PyVal.none = .ok PdDate.NaT := by
  have heq := process_dict_eq kvs daily units ds h1 h2 h3
  refine ⟨?_, ?_, rfl⟩
  · rintro ⟨x, hx, t, rfl, hp⟩
    have herr : parseDates ds = .error () :=
      parseDates_error_of_mem ds _ hx (toDatetime_str_of_fail t hp)
    rw [heq, herr]
  · intro f hf
    rw [heq] at hf
    cases hpd : parseDates ds with
    | error e =>
      rw [hpd] at hf
      simp at hf
    | ok dp =>
      rw [hpd] at hf
      simp only [Except.ok.injEq, Option.some.injEq] at hf
      subst hf
      refine ⟨dp, rfl, rfl, ?_⟩
      intro x hx t hxt
      subst hxt
      obtain ⟨d, hd⟩ := parseDates_ok_mem ds dp hpd _ hx
      obtain ⟨y, m, dd, hpp, _⟩ := toDatetime_str_ok t d hd
      exact ⟨y, m, dd, hpp⟩

/-- Witness for C8: a structurally valid payload whose only date string is
unparseable makes the transform return the absence signal. -/
theorem C8_date_parsing_witness :
    process_weather_data c8wData = .ok Option.none :=
  (C8_date_parsing
    [("daily", .dict c8wDaily), ("daily_units", .dict [])]
    c8wDaily [] [.str "nope"]
    rfl rfl rfl).1
    ⟨.str "nope", List.mem_singleton_self _, "nope", rfl, rfl⟩

end Forecast
